import Mathlib

/-!
Verification of the order-submission-and-completion-polling workflow of the
basemap-ordering notebooks (`requests_order_basemaps.ipynb`,
`SDK_order_basemaps.ipynb`).

The Python functions `poll_for_success`, `place_order` and the `order_params`
packet are shallowly embedded: HTTP traffic is modelled by an explicit
service behaviour (a function from the query index to the response), the
unbounded `while` loop by a fuel parameter (running out of fuel means the
loop is still going, it is not an outcome of the code), `print` and
`time.sleep` by an explicit event log, and an uncaught Python exception by a
dedicated outcome constructor.
-/

/-! ## The polling loop `poll_for_success` -/

/-- The parsed JSON body of one `GET order_url` response:
`response['state']` and the artifact names under `response['_links']['results']`. -/
structure StatusResponse where
  state : String
  results : List String
deriving DecidableEq, Repr

/-- What one `session.get(order_url, ...)` observes: either a transport-level
failure (the `requests` exception, uncaught by `poll_for_success`) or a
response body. -/
inductive QueryResult where
  | transportError (msg : String)
  | ok (resp : StatusResponse)
deriving DecidableEq, Repr

/-- The behaviour of the remote ordering service while polling: the result of
the i-th status query (0-based). -/
def Service : Type := Nat → QueryResult

/-- One observable side effect of the polling loop: `print(state)` or
`time.sleep(seconds)`. -/
inductive Event where
  | printed (state : String)
  | slept (seconds : Nat)
deriving DecidableEq, Repr

/-- How a run of `poll_for_success` ends: `return r` with the last response,
an uncaught exception from `session.get`, or still looping (fuel ran out). -/
inductive Outcome where
  | returned (resp : StatusResponse)
  | raised (msg : String)
  | running
deriving DecidableEq, Repr

/-- A run of the polling loop: how it ended, how many status queries it
issued, and the events it emitted, in order. -/
structure PollResult where
  outcome : Outcome
  queries : Nat
  events : List Event
deriving DecidableEq, Repr

/-- The list `end_states = ['success', 'failed', 'partial']` from
`poll_for_success`. -/
def end_states : List String := ["success", "failed", "partial"]

/-- The body of the `while state not in end_states` loop of
`poll_for_success`, from query index `i` on, with `fuel` remaining loop
iterations.  Each iteration issues one `session.get` (counted in `queries`);
a transport error propagates at once; otherwise the state is printed, a
terminal state breaks the loop returning the response `r`, and a
non-terminal state sleeps 10 seconds and retries. -/
def pollLoop (s : Service) (i : Nat) : Nat → PollResult
  | 0 => ⟨Outcome.running, 0, []⟩
  | fuel + 1 =>
    match s i with
    | QueryResult.transportError msg => ⟨Outcome.raised msg, 1, []⟩
    | QueryResult.ok resp =>
      if resp.state ∈ end_states then
        ⟨Outcome.returned resp, 1, [Event.printed resp.state]⟩
      else
        match pollLoop s (i + 1) fuel with
        | ⟨o, q, ev⟩ =>
          ⟨o, q + 1, Event.printed resp.state :: Event.slept 10 :: ev⟩

/-- The function `poll_for_success(order_url)`: the loop starts with
`state = ''`, which is not in `end_states`, so the body always runs first. -/
def poll_for_success (s : Service) (fuel : Nat) : PollResult :=
  pollLoop s 0 fuel

/-- The state carried by the i-th status response (empty for a transport
error, which carries no order state). -/
def obsState (s : Service) (i : Nat) : String :=
  match s i with
  | QueryResult.ok resp => resp.state
  | QueryResult.transportError _ => ""

/-- The progress notifications a run emitted: the arguments of its
`print(state)` calls, in order. -/
def notifications (r : PollResult) : List String :=
  r.events.filterMap fun e =>
    match e with
    | Event.printed st => some st
    | Event.slept _ => none

/-- The number of status responses a run actually observed: every query but
a final failing one (a raised transport error yields no response body). -/
def okResponses (r : PollResult) : Nat :=
  match r.outcome with
  | Outcome.raised _ => r.queries - 1
  | _ => r.queries

/-- The synthetic stub of the spec's test: states `queued, running, running,
success` in sequence, the manifest delivered with the 4th response. -/
def qrrs : Service := fun i =>
  if i = 0 then QueryResult.ok ⟨"queued", []⟩
  else if i = 1 then QueryResult.ok ⟨"running", []⟩
  else if i = 2 then QueryResult.ok ⟨"running", []⟩
  else QueryResult.ok ⟨"success", ["manifest.json", "quad.tif"]⟩

/-- A stub that never reaches a terminal state: every query reports
`queued`. -/
def alwaysQueued : Service := fun _ => QueryResult.ok ⟨"queued", []⟩

/-- A stub that answers the 1st query normally and fails at the transport
level on the 2nd query. -/
def errOnSecond : Service := fun i =>
  if i = 0 then QueryResult.ok ⟨"queued", []⟩
  else QueryResult.transportError "connection reset"

/-- Claim C6 as stated: every notification carries the state name AND the
elapsed time.  With one query per loop iteration and a 10-second sleep
between consecutive queries, the elapsed time at the i-th query is `10 * i`
seconds; "carrying" the elapsed time means the notifications arise from one
formatting function from which the elapsed time can be recovered (it is
injective in the elapsed-time argument for a fixed state name). -/
def notificationsCarryElapsedTime : Prop :=
  ∃ mk : String → Nat → String,
    (∀ st t t', mk st t = mk st t' → t = t') ∧
    ∀ (s : Service) (fuel i : Nat)
      (h : i < (notifications (poll_for_success s fuel)).length),
      (notifications (poll_for_success s fuel)).get ⟨i, h⟩
        = mk (obsState s i) (10 * i)

/-! ## Order submission: `place_order` and the `order_params` packet -/

/-- One entry of `order_params["products"]`: a mosaic name and the quad ids
to produce from it (the quad-id form of the packet, cell 13 of the requests
notebook). -/
structure Product where
  mosaic_name : String
  quad_ids : List String
deriving DecidableEq, Repr

/-- The `reproject` tool descriptor of `order_params["tools"]`. -/
structure ReprojectTool where
  projection : String
  resolution : Rat
  kernel : String
deriving DecidableEq, Repr

/-- The `bandmath` tool descriptor of `order_params["tools"]`. -/
structure BandmathTool where
  b1 : String
  b2 : String
  b3 : String
  b4 : String
  b5 : String
  pixel_type : String
deriving DecidableEq, Repr

/-- The `google_cloud_storage` delivery descriptor of
`order_params["delivery"]`. -/
structure GcsDelivery where
  bucket : String
  credentials : String
  path_prefix : String
deriving DecidableEq, Repr

/-- The `order_params` packet built in the requests notebook (quad-id form):
a name, a source type, a product list, the reproject+bandmath tool list and
the delivery descriptor. -/
structure OrderSpec where
  name : String
  source_type : String
  products : List Product
  reproject : ReprojectTool
  bandmath : BandmathTool
  delivery : GcsDelivery
deriving DecidableEq, Repr

/-- The spec's input constraint on `submitOrder`: at least one product
descriptor (the delivery descriptor is structurally present and non-empty in
this packet shape). -/
def validOrderSpec (spec : OrderSpec) : Prop :=
  spec.products ≠ []

/-- The constant `ORDERS_API_URL` from the requests notebook. -/
def ORDERS_API_URL : String := "https://api.planet.com/compute/ops/orders/v2"

/-- The response to `session.post(ORDERS_API_URL, json=order_params, ...)`:
an HTTP status code and the parsed JSON body, modelled as the string fields
of the body object. -/
structure HttpResponse where
  status : Nat
  body : List (String × String)
deriving DecidableEq, Repr

/-- How `place_order` can end: return of the order URL, an uncaught Python
`KeyError` from `response.json()['id']`, or a `SubmissionFailed` signal
carrying the raw body.  The last constructor exists only to state the spec's
claim — the notebook code has no path that produces it. -/
inductive SubmitResult where
  | url (u : String)
  | keyError (key : String)
  | submissionFailed (rawBody : List (String × String))
deriving DecidableEq, Repr

/-- The function `place_order(order_params, auth)`: posts the spec and builds
`order_url = ORDERS_API_URL + '/' + response.json()['id']`.  The HTTP status
is never inspected; a body without an `id` key makes `response.json()['id']`
raise `KeyError`. -/
def place_order (service : OrderSpec → HttpResponse) (order_params : OrderSpec) :
    SubmitResult :=
  match (service order_params).body.lookup "id" with
  | some order_id => SubmitResult.url (ORDERS_API_URL ++ "/" ++ order_id)
  | none => SubmitResult.keyError "id"

/-- Claim C5 as stated: for every valid spec, `place_order` either returns a
handle with a non-empty identifier, or signals `SubmissionFailed` carrying
the raw response body when the service answers a non-success (≥ 400)
status; no other outcome occurs. -/
def submitOrderClaim : Prop :=
  ∀ (service : OrderSpec → HttpResponse) (spec : OrderSpec),
    validOrderSpec spec →
      (∃ order_id, order_id ≠ "" ∧
        place_order service spec
          = SubmitResult.url (ORDERS_API_URL ++ "/" ++ order_id))
      ∨ (400 ≤ (service spec).status ∧
        place_order service spec
          = SubmitResult.submissionFailed (service spec).body)

/-- A service stub that rejects the order: status 400 with a diagnostic body
that has no `id` field. -/
def rejectingService : OrderSpec → HttpResponse :=
  fun _ => ⟨400, [("message", "order failed")]⟩

/-- A service stub that accepts the order with a fresh order id. -/
def acceptingService : OrderSpec → HttpResponse :=
  fun _ => ⟨202, [("id", "25486588-0f1b-4627-aa66-b27a9c765be9")]⟩

/-- The concrete quad-id `order_params` packet of the requests notebook
(cell 13), with the resolution computed at latitude 37 abstracted to a
rational sample value. -/
def order_params : OrderSpec :=
  { name := "basemap order with quad_ids"
    source_type := "basemaps"
    products := [⟨"ps_biweekly_sen2_normalized_analytic_subscription_2023-03-20_2023-04-03_mosaic",
                  ["1050-2037", "1051-2037"]⟩]
    reproject := ⟨"EPSG:4326", 3 / 100000, "cubic"⟩
    bandmath := ⟨"b1", "b2", "b3", "b4", "(b4-b3)/(b4+b3)", "32R"⟩
    delivery := ⟨"devrel-notebooks", "GCP_CREDENTIALS", "basemaps-to-cloud/"⟩ }

/-! ## The JSON order packet and its round trip -/

/-- A JSON value, the shape `requests` serializes `order_params` into. -/
inductive Json where
  | str (s : String)
  | num (q : Rat)
  | arr (elems : List Json)
  | obj (fields : List (String × Json))

/-- Serialization of one product entry, mirroring the dict literal
`{"mosaic_name": ..., "quad_ids": quad_ids}`. -/
def productToJson (p : Product) : Json :=
  Json.obj [("mosaic_name", Json.str p.mosaic_name),
            ("quad_ids", Json.arr (p.quad_ids.map Json.str))]

/-- Serialization of the `reproject` tool entry. -/
def reprojectToJson (t : ReprojectTool) : Json :=
  Json.obj [("reproject", Json.obj
    [("projection", Json.str t.projection),
     ("resolution", Json.num t.resolution),
     ("kernel", Json.str t.kernel)])]

/-- Serialization of the `bandmath` tool entry. -/
def bandmathToJson (t : BandmathTool) : Json :=
  Json.obj [("bandmath", Json.obj
    [("b1", Json.str t.b1), ("b2", Json.str t.b2), ("b3", Json.str t.b3),
     ("b4", Json.str t.b4), ("b5", Json.str t.b5),
     ("pixel_type", Json.str t.pixel_type)])]

/-- Serialization of the `google_cloud_storage` delivery descriptor. -/
def gcsToJson : GcsDelivery → Json
  | ⟨b, c, p⟩ =>
    Json.obj [("bucket", Json.str b),
              ("credentials", Json.str c),
              ("path_prefix", Json.str p)]

/-- Serialization of the whole `order_params` packet, mirroring the dict
literal of cell 13 of the requests notebook. -/
def orderSpecToJson (spec : OrderSpec) : Json :=
  Json.obj [("name", Json.str spec.name),
            ("source_type", Json.str spec.source_type),
            ("products", Json.arr (spec.products.map productToJson)),
            ("tools", Json.arr [reprojectToJson spec.reproject,
                                bandmathToJson spec.bandmath]),
            ("delivery", Json.obj [("google_cloud_storage", gcsToJson spec.delivery)])]

/-- Deserialization of a JSON array of strings. -/
def strListFromJson : List Json → Option (List String)
  | [] => some []
  | Json.str s :: rest => (strListFromJson rest).map fun l => s :: l
  | _ => none

/-- Deserialization of one product entry. -/
def productFromJson : Json → Option Product
  | Json.obj [("mosaic_name", Json.str m), ("quad_ids", Json.arr qs)] =>
      (strListFromJson qs).map fun ids => ⟨m, ids⟩
  | _ => none

/-- Deserialization of the product list. -/
def productsFromJson : List Json → Option (List Product)
  | [] => some []
  | j :: rest =>
    match productFromJson j, productsFromJson rest with
    | some p, some ps => some (p :: ps)
    | _, _ => none

/-- Deserialization of the `reproject` tool entry. -/
def reprojectFromJson : Json → Option ReprojectTool
  | Json.obj [("reproject", Json.obj
      [("projection", Json.str pr),
       ("resolution", Json.num res),
       ("kernel", Json.str k)])] => some ⟨pr, res, k⟩
  | _ => none

/-- Deserialization of the `bandmath` tool entry. -/
def bandmathFromJson : Json → Option BandmathTool
  | Json.obj [("bandmath", Json.obj
      [("b1", Json.str v1), ("b2", Json.str v2), ("b3", Json.str v3),
       ("b4", Json.str v4), ("b5", Json.str v5),
       ("pixel_type", Json.str pt)])] => some ⟨v1, v2, v3, v4, v5, pt⟩
  | _ => none

/-- Deserialization of the delivery descriptor. -/
def gcsFromJson : Json → Option GcsDelivery
  | Json.obj [("bucket", Json.str b),
              ("credentials", Json.str c),
              ("path_prefix", Json.str p)] => some ⟨b, c, p⟩
  | _ => none

/-- Deserialization of the whole packet. -/
def orderSpecFromJson : Json → Option OrderSpec
  | Json.obj [("name", Json.str n),
              ("source_type", Json.str st),
              ("products", Json.arr ps),
              ("tools", Json.arr [rj, bj]),
              ("delivery", Json.obj [("google_cloud_storage", dj)])] =>
    match productsFromJson ps, reprojectFromJson rj,
          bandmathFromJson bj, gcsFromJson dj with
    | some prods, some r, some b, some d => some ⟨n, st, prods, r, b, d⟩
    | _, _, _, _ => none
  | _ => none

/-! ## Lemmas about the polling loop -/

theorem pollLoop_zero (s : Service) (i : Nat) :
    pollLoop s i 0 = ⟨Outcome.running, 0, []⟩ := rfl

theorem pollLoop_returned_terminal (s : Service) :
    ∀ (fuel i : Nat) (resp : StatusResponse),
      (pollLoop s i fuel).outcome = Outcome.returned resp →
        resp.state ∈ end_states := by
  intro fuel
  induction fuel with
  | zero =>
    intro i resp h
    simp [pollLoop] at h
  | succ n ih =>
    intro i resp h
    simp only [pollLoop] at h
    rcases hs : s i with msg | r <;> rw [hs] at h
    · simp at h
    · by_cases hterm : r.state ∈ end_states
      · simp [hterm] at h
        exact h ▸ hterm
      · simp [hterm] at h
        exact ih (i + 1) resp h

theorem pollLoop_finished_queries_pos (s : Service) :
    ∀ (fuel i : Nat) (o : Outcome) (q : Nat) (ev : List Event),
      pollLoop s i fuel = ⟨o, q, ev⟩ → o ≠ Outcome.running → 1 ≤ q := by
  intro fuel
  induction fuel with
  | zero =>
    intro i o q ev h ho
    simp [pollLoop] at h
    exact absurd h.1.symm ho
  | succ n ih =>
    intro i o q ev h ho
    simp only [pollLoop] at h
    rcases hs : s i with msg | r <;> rw [hs] at h
    · simp at h
      omega
    · by_cases hterm : r.state ∈ end_states
      · simp [hterm] at h
        omega
      · simp [hterm] at h
        omega

theorem pollLoop_returned_last (s : Service) :
    ∀ (fuel i q : Nat) (resp : StatusResponse) (ev : List Event),
      pollLoop s i fuel = ⟨Outcome.returned resp, q, ev⟩ →
        s (i + q - 1) = QueryResult.ok resp := by
  intro fuel
  induction fuel with
  | zero =>
    intro i q resp ev h
    simp [pollLoop] at h
  | succ n ih =>
    intro i q resp ev h
    simp only [pollLoop] at h
    rcases hs : s i with msg | r <;> rw [hs] at h
    · simp at h
    · by_cases hterm : r.state ∈ end_states
      · simp [hterm] at h
        obtain ⟨h1, h2, h3⟩ := h
        have : i + q - 1 = i := by omega
        rw [this, hs, h1]
      · simp [hterm] at h
        rcases hr : pollLoop s (i + 1) n with ⟨o, q', ev'⟩
        rw [hr] at h
        simp at h
        obtain ⟨h1, h2, h3⟩ := h
        have hlast := ih (i + 1) q' resp ev' (h1 ▸ hr)
        have heq : i + q - 1 = i + 1 + q' - 1 := by omega
        rw [heq]
        exact hlast

theorem pollLoop_notifications (s : Service) :
    ∀ (fuel i : Nat),
      notifications (pollLoop s i fuel)
        = (List.range' i (okResponses (pollLoop s i fuel))).map (obsState s) := by
  intro fuel
  induction fuel with
  | zero =>
    intro i
    simp [pollLoop, notifications, okResponses]
  | succ n ih =>
    intro i
    rcases hs : s i with msg | r
    · simp [pollLoop, hs, notifications, okResponses]
    · by_cases hterm : r.state ∈ end_states
      · simp [pollLoop, hs, hterm, notifications, okResponses,
              List.range'_succ, obsState]
      · have ihr := ih (i + 1)
        rcases hr : pollLoop s (i + 1) n with ⟨o, q, ev⟩
        rw [hr] at ihr
        cases o with
        | raised msg =>
          have hq : 1 ≤ q :=
            pollLoop_finished_queries_pos s n (i + 1) _ q ev hr (by simp)
          simp [pollLoop, hs, hterm, hr, notifications, okResponses] at ihr ⊢
          rw [ihr]
          rw [show q = (q - 1) + 1 from by omega, List.range'_succ]
          simp [obsState, hs]
        | returned resp =>
          simp [pollLoop, hs, hterm, hr, notifications, okResponses] at ihr ⊢
          rw [ihr, List.range'_succ]
          simp [obsState, hs]
        | running =>
          simp [pollLoop, hs, hterm, hr, notifications, okResponses] at ihr ⊢
          rw [ihr, List.range'_succ]
          simp [obsState, hs]

theorem pollLoop_returned_events (s : Service) :
    ∀ (fuel i q : Nat) (resp : StatusResponse) (ev : List Event),
      pollLoop s i fuel = ⟨Outcome.returned resp, q, ev⟩ →
        ev = ((List.range' i (q - 1)).map
                fun j => [Event.printed (obsState s j), Event.slept 10]).flatten
             ++ [Event.printed resp.state]
        ∧ ∀ j, i ≤ j → j < i + (q - 1) → obsState s j ∉ end_states := by
  intro fuel
  induction fuel with
  | zero =>
    intro i q resp ev h
    simp [pollLoop] at h
  | succ n ih =>
    intro i q resp ev h
    simp only [pollLoop] at h
    rcases hs : s i with msg | r <;> rw [hs] at h
    · simp at h
    · by_cases hterm : r.state ∈ end_states
      · simp [hterm] at h
        obtain ⟨h1, h2, h3⟩ := h
        constructor
        · rw [← h3, ← h2, h1]
          simp
        · intro j hij hj
          omega
      · simp [hterm] at h
        rcases hr : pollLoop s (i + 1) n with ⟨o, q', ev'⟩
        rw [hr] at h
        simp at h
        obtain ⟨h1, h2, h3⟩ := h
        have hq' : 1 ≤ q' :=
          pollLoop_finished_queries_pos s n (i + 1) _ q' ev' hr (by rw [h1]; simp)
        obtain ⟨ihev, ihnt⟩ := ih (i + 1) q' resp ev' (h1 ▸ hr)
        constructor
        · rw [← h3, ihev]
          rw [show q - 1 = (q' - 1) + 1 from by omega]
          rw [List.range'_succ]
          simp [obsState, hs]
        · intro j hij hj
          rcases Nat.eq_or_lt_of_le hij with hji | hji
          · rw [← hji]
            simpa [obsState, hs] using hterm
          · exact ihnt j hji (by omega)

theorem pollLoop_nonterminal_running (s : Service)
    (hnt : ∀ j, ∃ resp, s j = QueryResult.ok resp ∧ resp.state ∉ end_states) :
    ∀ (fuel i : Nat),
      (pollLoop s i fuel).outcome = Outcome.running ∧
      (pollLoop s i fuel).queries = fuel := by
  intro fuel
  induction fuel with
  | zero =>
    intro i
    simp [pollLoop]
  | succ n ih =>
    intro i
    obtain ⟨resp, hsi, hst⟩ := hnt i
    rcases hr : pollLoop s (i + 1) n with ⟨o, q, ev⟩
    have ihr := ih (i + 1)
    rw [hr] at ihr
    simp at ihr
    simp [pollLoop, hsi, hst, hr, ihr.1, ihr.2]

/-! ## Round-trip lemmas for the JSON packet -/

theorem strList_round_trip :
    ∀ l : List String, strListFromJson (l.map Json.str) = some l := by
  intro l
  induction l with
  | nil => rfl
  | cons x xs ih => simp [strListFromJson, ih]

theorem product_round_trip (p : Product) :
    productFromJson (productToJson p) = some p := by
  rcases p with ⟨m, qs⟩
  simp [productToJson, productFromJson, strList_round_trip]

theorem products_round_trip :
    ∀ ps : List Product, productsFromJson (ps.map productToJson) = some ps := by
  intro ps
  induction ps with
  | nil => rfl
  | cons p rest ih => simp [productsFromJson, product_round_trip, ih]

/-! ## The claims -/

/-- Claim C1: whenever `poll_for_success` returns, the state of the response
it returns is terminal (`success`, `failed` or `partial`); it never returns
while the last observed state is `queued`, `running` or any other
non-terminal value. -/
theorem C1_poll_returns_only_terminal_states (s : Service) (fuel : Nat)
    (resp : StatusResponse)
    (h : (poll_for_success s fuel).outcome = Outcome.returned resp) :
    resp.state ∈ end_states :=
  pollLoop_returned_terminal s fuel 0 resp h

/-- Witness for C1 at the `queued, running, running, success` stub. -/
theorem C1_witness :
    (StatusResponse.mk "success" ["manifest.json", "quad.tif"]).state ∈ end_states :=
  C1_poll_returns_only_terminal_states qrrs 10
    ⟨"success", ["manifest.json", "quad.tif"]⟩ (by decide)

/-- Claim C2: against the stub whose states are `queued, running, running,
success` in sequence, the poller issues exactly 4 status queries and returns
`success` together with the manifest carried by the 4th response. -/
theorem C2_four_queries_then_success_with_manifest :
    (poll_for_success qrrs 10).queries = 4 ∧
    (poll_for_success qrrs 10).outcome
      = Outcome.returned ⟨"success", ["manifest.json", "quad.tif"]⟩ ∧
    qrrs 3 = QueryResult.ok ⟨"success", ["manifest.json", "quad.tif"]⟩ := by
  decide

/-- Claim C3 (code bug): the code has no `maxAttempts`/`num_loops` bound even
though the docstring of `poll_for_success` says it "fails after num_loops"
and documents a `num_loops` parameter the signature does not take.  Against
a stub that always reports `queued`, after 3 loop iterations the code has
issued 3 queries, raised no `PollTimeout`, and is still polling — and it is
still polling after any number of iterations. -/
theorem C3_no_poll_timeout_exists :
    (poll_for_success alwaysQueued 3).queries = 3 ∧
    (poll_for_success alwaysQueued 3).outcome = Outcome.running ∧
    ∀ fuel : Nat, (poll_for_success alwaysQueued fuel).outcome = Outcome.running := by
  refine ⟨by decide, by decide, fun fuel => ?_⟩
  exact (pollLoop_nonterminal_running alwaysQueued
    (fun j => ⟨⟨"queued", []⟩, rfl, by decide⟩) fuel 0).1

/-- Claim C4: a transport-level failure on the 2nd status query propagates
immediately: the run ends with the raised transport error after exactly 2
queries — no 3rd query and no silent retry — having observed only the 1st
state. -/
theorem C4_transport_error_propagates_immediately :
    poll_for_success errOnSecond 10
      = ⟨Outcome.raised "connection reset", 2,
         [Event.printed "queued", Event.slept 10]⟩ := by
  decide

/-- Counterexample to claim C5 as stated: when the service rejects the order
with status 400 and a diagnostic body that has no `id` key, `place_order`
neither returns a handle nor signals `SubmissionFailed` — it raises an
uncaught `KeyError` on `id`, because the code never inspects the HTTP status
and reads `response.json()['id']` unconditionally. -/
theorem C5_counterexample : ¬ submitOrderClaim := by
  intro h
  have hpo : place_order rejectingService order_params
      = SubmitResult.keyError "id" := by decide
  have hv : validOrderSpec order_params := by
    unfold validOrderSpec order_params
    simp
  rcases h rejectingService order_params hv with ⟨oid, hne, heq⟩ | ⟨hst, heq⟩
  · rw [hpo] at heq
    exact SubmitResult.noConfusion heq
  · rw [hpo] at heq
    exact SubmitResult.noConfusion heq

/-- Claim C5 (amended): for every valid `OrderSpec`, `place_order` returns
the order URL formed by appending the response body's `id` value (which may
be empty) to the orders API URL whenever the body has an `id` key, and
otherwise raises an uncaught `KeyError` on `id`; it never inspects the HTTP
status and never signals `SubmissionFailed`. -/
theorem C5_place_order_url_or_keyerror
    (service : OrderSpec → HttpResponse) (spec : OrderSpec)
    (_hv : validOrderSpec spec) :
    (∃ order_id, (service spec).body.lookup "id" = some order_id ∧
      place_order service spec
        = SubmitResult.url (ORDERS_API_URL ++ "/" ++ order_id))
    ∨ ((service spec).body.lookup "id" = none ∧
      place_order service spec = SubmitResult.keyError "id") := by
  rcases hl : (service spec).body.lookup "id" with _ | oid
  · right
    exact ⟨rfl, by simp [place_order, hl]⟩
  · left
    exact ⟨oid, rfl, by simp [place_order, hl]⟩

/-- Witness for C5 (amended) at a service that accepts the order. -/
theorem C5_witness :
    (∃ order_id,
      (acceptingService order_params).body.lookup "id" = some order_id ∧
      place_order acceptingService order_params
        = SubmitResult.url (ORDERS_API_URL ++ "/" ++ order_id))
    ∨ ((acceptingService order_params).body.lookup "id" = none ∧
      place_order acceptingService order_params = SubmitResult.keyError "id") :=
  C5_place_order_url_or_keyerror acceptingService order_params
    (by unfold validOrderSpec order_params; simp)

/-- Counterexample to claim C6 as stated: the notifications cannot carry the
elapsed time, because `print(state)` emits the bare state name — against the
`queued, running, running, success` stub the 2nd and 3rd notifications are
the identical string `running` although their elapsed times (10 s and 20 s)
differ, so no elapsed-time-recovering formatter can produce them. -/
theorem C6_counterexample : ¬ notificationsCarryElapsedTime := by
  rintro ⟨mk, hinj, hall⟩
  have h1 := hall qrrs 10 1 (by decide)
  have h2 := hall qrrs 10 2 (by decide)
  have o1 : obsState qrrs 1 = "running" := by decide
  have o2 : obsState qrrs 2 = "running" := by decide
  rw [o1] at h1
  rw [o2] at h2
  have hkey : mk "running" (10 * 1) = mk "running" (10 * 2) := by
    rw [← h1, ← h2]
    decide
  have := hinj "running" (10 * 1) (10 * 2) hkey
  omega

/-- Claim C6 (amended): the poller emits exactly one progress notification
per observed status response, in query order, repeats included — the i-th
notification is exactly the state name of the i-th response (it does not
carry the elapsed time). -/
theorem C6_one_notification_per_response (s : Service) (fuel : Nat) :
    notifications (poll_for_success s fuel)
      = (List.range (okResponses (poll_for_success s fuel))).map (obsState s) := by
  have h := pollLoop_notifications s fuel 0
  simpa [poll_for_success, List.range_eq_range'] using h

/-- Claim C7: each loop iteration issues exactly one status query; on a
terminal observation the loop stops and returns immediately without
sleeping, and after every non-terminal observation it sleeps 10 seconds
before the next query — a returned run's event log is a (print, sleep 10)
pair for each of the `queries - 1` non-terminal observations, followed by a
final print of the terminal state with no sleep after it. -/
theorem C7_sleeps_after_nonterminal_only (s : Service) (fuel q : Nat)
    (resp : StatusResponse) (ev : List Event)
    (h : poll_for_success s fuel = ⟨Outcome.returned resp, q, ev⟩) :
    ev = ((List.range' 0 (q - 1)).map
            fun j => [Event.printed (obsState s j), Event.slept 10]).flatten
         ++ [Event.printed resp.state]
    ∧ ∀ j, j < q - 1 → obsState s j ∉ end_states := by
  obtain ⟨h1, h2⟩ := pollLoop_returned_events s fuel 0 q resp ev h
  exact ⟨h1, fun j hj => h2 j (Nat.zero_le j) (by omega)⟩

/-- Witness for C7 at the `queued, running, running, success` stub. -/
theorem C7_witness :
    ([Event.printed "queued", Event.slept 10, Event.printed "running",
      Event.slept 10, Event.printed "running", Event.slept 10,
      Event.printed "success"] : List Event)
      = ((List.range' 0 (4 - 1)).map
           fun j => [Event.printed (obsState qrrs j), Event.slept 10]).flatten
        ++ [Event.printed (StatusResponse.mk "success"
              ["manifest.json", "quad.tif"]).state]
    ∧ ∀ j, j < 4 - 1 → obsState qrrs j ∉ end_states :=
  C7_sleeps_after_nonterminal_only qrrs 10 4
    ⟨"success", ["manifest.json", "quad.tif"]⟩
    [Event.printed "queued", Event.slept 10, Event.printed "running",
     Event.slept 10, Event.printed "running", Event.slept 10,
     Event.printed "success"] (by decide)

/-- Claim C8: the code has no attempt bound (no `maxAttempts` is taken), so
against a service that never returns a terminal state the poller performs
unboundedly many status queries and never returns: after any number of loop
iterations it has issued exactly that many queries, is still polling, and no
timeout of any kind has been signalled. -/
theorem C8_unbounded_polling (s : Service)
    (hnt : ∀ j, ∃ resp, s j = QueryResult.ok resp ∧ resp.state ∉ end_states)
    (fuel : Nat) :
    (poll_for_success s fuel).outcome = Outcome.running ∧
    (poll_for_success s fuel).queries = fuel :=
  pollLoop_nonterminal_running s hnt fuel 0

/-- Witness for C8 at the always-`queued` stub. -/
theorem C8_witness :
    (poll_for_success alwaysQueued 5).outcome = Outcome.running ∧
    (poll_for_success alwaysQueued 5).queries = 5 :=
  C8_unbounded_polling alwaysQueued
    (fun j => ⟨⟨"queued", []⟩, rfl, by decide⟩) 5

/-- Claim C9: an `OrderSpec` built from a mosaic name, a quad-id list, the
reproject+bandmath tool list and a delivery descriptor serializes to JSON
and deserializes back to an equal record, with no field lost. -/
theorem C9_orderspec_json_round_trip (spec : OrderSpec) :
    orderSpecFromJson (orderSpecToJson spec) = some spec := by
  rcases spec with ⟨n, st, ps, ⟨pr, res, k⟩, ⟨v1, v2, v3, v4, v5, pt⟩, ⟨b, c, pp⟩⟩
  simp [orderSpecToJson, orderSpecFromJson, reprojectToJson, reprojectFromJson,
        bandmathToJson, bandmathFromJson, gcsToJson, gcsFromJson,
        products_round_trip]

/-- Claim C10: the loop body always runs at least once — the initial
`state = ''` is not in `end_states`, so any run that actually finished
(returned or raised) issued at least one status query, and the response a
returned run hands back is the one bound by the last `session.get`, so the
returned variable is always defined. -/
theorem C10_at_least_one_query (s : Service) (fuel : Nat) :
    ("" ∉ end_states) ∧
    ((poll_for_success s fuel).outcome ≠ Outcome.running →
      1 ≤ (poll_for_success s fuel).queries) ∧
    (∀ resp, (poll_for_success s fuel).outcome = Outcome.returned resp →
      s ((poll_for_success s fuel).queries - 1) = QueryResult.ok resp) := by
  refine ⟨by decide, ?_, ?_⟩
  · intro hfin
    rcases hr : poll_for_success s fuel with ⟨o, q, ev⟩
    rw [hr] at hfin
    simp at hfin
    exact pollLoop_finished_queries_pos s fuel 0 o q ev hr hfin
  · intro resp h
    rcases hr : poll_for_success s fuel with ⟨o, q, ev⟩
    rw [hr] at h
    simp at h
    have hlast := pollLoop_returned_last s fuel 0 q resp ev (h ▸ hr)
    simpa using hlast

/-- Witness for C10 at the `queued, running, running, success` stub. -/
theorem C10_witness :
    1 ≤ (poll_for_success qrrs 10).queries ∧
    qrrs ((poll_for_success qrrs 10).queries - 1)
      = QueryResult.ok ⟨"success", ["manifest.json", "quad.tif"]⟩ :=
  ⟨(C10_at_least_one_query qrrs 10).2.1 (by decide),
   (C10_at_least_one_query qrrs 10).2.2
     ⟨"success", ["manifest.json", "quad.tif"]⟩ (by decide)⟩
